import Mathlib

/-!
Verification of the Flutter grading backend (`src/evaluate/evaluate.service.ts`).

The service is a sequential pipeline: validate the GitHub URL, clone,
check required files, run `flutter pub get`, run `flutter analyze`
(with a `flutter build` fallback), run `flutter test`, collect the
`lib/` Dart files, and finally score code quality via the Groq API.

The embedding models every outcome of the external world (URL parsing,
subprocess runs, filesystem contents, the HTTP call to Groq) as a field
of an `Env` record, and translates the TypeScript control flow into a
pure function `evaluate : Env → Except ApiError EvaluateResponseDto × List Effect`.
The effect list records which side-effecting stages were invoked, in order.
JavaScript string truthiness (empty string is falsy) is modelled explicitly.
-/

/-- Result of `new URL(url)` in `isValidGitHubUrl`: either the constructor
throws (malformed URL) or it yields an object whose `hostname` we keep. -/
inductive UrlParse where
  | invalid : UrlParse
  | parsed (hostname : String) : UrlParse
deriving DecidableEq

/-- Captured output of a subprocess run that completed (`execAsync` resolved). -/
structure ExecResult where
  stdout : String
  stderr : String
deriving DecidableEq

/-- Outcome of an `execAsync` call: resolved with captured output, or rejected
with an error whose `message` we keep. -/
inductive ExecOutcome where
  | ok (r : ExecResult)
  | err (message : String)
deriving DecidableEq

/-- One collected `lib/` source file: relative path and content. -/
structure LibFile where
  path : String
  content : String
deriving DecidableEq

/-- The body the Groq API returned, as seen after `JSON.parse` is attempted on
the message content in `evaluateWithGroq`:
either `JSON.parse` failed (we keep the raw text and the result of the
score-salvaging regular-expression search, digits only hence a `Nat`), or it
produced an object whose relevant fields we keep. `score = none` models a
missing field or one whose `parseInt` is `NaN`. -/
inductive GroqContent where
  | unparsable (raw : String) (extractedScore : Option Nat)
  | json (score : Option Int) (summary : Option String) (feedback : Option String)
      (strengths : Option (List String)) (weaknesses : Option (List String))
      (recommendations : Option String)
deriving DecidableEq

/-- Outcome of the Groq HTTP interaction inside the `try` block of
`evaluateWithGroq`: `axios.post` threw (network error or non-2xx status;
`apiMessage` is `error.response?.data?.error?.message`), or it resolved with
no message content (`!result`), or it resolved with content. -/
inductive GroqOutcome where
  | transportError (message : String) (apiMessage : Option String)
  | noContent
  | content (c : GroqContent)
deriving DecidableEq

/-- The external-world outcomes one evaluation run can observe. -/
structure Env where
  url : UrlParse
  clonePath : Option String
  pubspecExists : Bool
  mainDartExists : Bool
  pubGetExec : ExecOutcome
  analyzeExec : ExecOutcome
  buildFallback : Option String
  testExec : ExecOutcome
  libDir : Option (List LibFile)
  groqApiKey : Option String
  groqOutcome : GroqOutcome
deriving DecidableEq

/-- The typed exceptions the service throws. -/
inductive ApiError where
  | badRequest (message : String)
  | internalServerError (message : String)
deriving DecidableEq

/-- One entry of the `checks` list (`CheckResult` in the dto). -/
structure CheckResult where
  name : String
  passed : Bool
  message : Option String
  score : Int
deriving DecidableEq

/-- The `details.groqEvaluation` sub-record of the response. -/
structure GroqEvaluationSummary where
  score : Int
  summary : String
  strengths : List String
  weaknesses : List String
  recommendations : String
deriving DecidableEq

/-- The `details` record of the response. -/
structure EvalDetails where
  cloneSuccessful : Bool
  filesValid : Bool
  pubGetSuccessful : Bool
  buildSuccessful : Bool
  testsPassed : Bool
  groqEvaluation : Option GroqEvaluationSummary
deriving DecidableEq

/-- The response dto (`EvaluateResponseDto`). -/
structure EvaluateResponseDto where
  totalScore : Int
  maxScore : Int
  checks : List CheckResult
  feedback : Option String
  summary : Option String
  details : EvalDetails
deriving DecidableEq

/-- Side-effecting stages of a run, recorded in invocation order. -/
inductive Effect where
  | cloneRepo
  | pubGetCmd
  | analyzeCmd
  | testCmd
  | collectFiles
  | groqStage
deriving DecidableEq

/-- Scans the haystack left to right, testing the needle as a prefix at
every position. -/
def hasInfixAux (needle : List Char) : List Char → Bool
  | [] => needle.isEmpty
  | c :: rest => needle.isPrefixOf (c :: rest) || hasInfixAux needle rest

/-- JavaScript `haystack.includes(needle)`: substring containment. -/
def strIncludes (haystack needle : String) : Bool :=
  hasInfixAux needle.data haystack.data

/-- JavaScript `s.substring(0, n)`: the first `n` units of `s`. -/
def jsSubstring (s : String) (n : Nat) : String :=
  ⟨s.data.take n⟩

/-- JavaScript `o || d` on a possibly-undefined string: the empty string is
falsy, so it also falls through to the default. -/
def jsOrElse (o : Option String) (d : String) : String :=
  match o with
  | some s => if s = "" then d else s
  | none => d

/-- JavaScript `a || b` where both operands are possibly-undefined strings. -/
def jsOrOpt (a b : Option String) : Option String :=
  match a with
  | some s => if s = "" then b else some s
  | none => b

/-- `isValidGitHubUrl`: the URL must parse and its hostname must be exactly
`github.com` or `www.github.com`. -/
def isValidGitHubUrl (u : UrlParse) : Bool :=
  match u with
  | UrlParse.invalid => false
  | UrlParse.parsed hostname =>
      hostname == "github.com" || hostname == "www.github.com"

/-- Result shape of `checkRequiredFiles`. -/
structure FileCheck where
  valid : Bool
  message : Option String
deriving DecidableEq

/-- `checkRequiredFiles`: both `pubspec.yaml` and `lib/main.dart` must exist;
the three failure cases carry distinct messages. -/
def checkRequiredFiles (pubspecExists mainDartExists : Bool) : FileCheck :=
  if !pubspecExists && !mainDartExists then
    ⟨false, some "pubspec.yaml and lib/main.dart are missing"⟩
  else if !pubspecExists then
    ⟨false, some "pubspec.yaml is missing"⟩
  else if !mainDartExists then
    ⟨false, some "lib/main.dart is missing"⟩
  else
    ⟨true, none⟩

/-- Result shape of the three stage runners. -/
structure StageResult where
  success : Bool
  message : Option String
deriving DecidableEq

/-- `runFlutterPubGet`: on a completed command, fail iff stderr is non-empty
and does not contain the substring `Warning`; on a thrown error, fail with the
error message (defaulting when it is falsy). -/
def runFlutterPubGet (o : ExecOutcome) : StageResult :=
  match o with
  | ExecOutcome.ok r =>
      if r.stderr != "" && !(strIncludes r.stderr "Warning") then
        ⟨false, some r.stderr⟩
      else
        ⟨true, some "Dependencies installed successfully"⟩
  | ExecOutcome.err m =>
      ⟨false, some (jsOrElse (some m) "flutter pub get failed")⟩

/-- `checkBuild`: run `flutter analyze`; on completed output, fail iff an
error marker appears and no info marker does. If `flutter analyze` itself
throws, fall back to `flutter build`: success iff that does not throw. -/
def checkBuild (analyzeExec : ExecOutcome) (buildFallback : Option String) : StageResult :=
  match analyzeExec with
  | ExecOutcome.ok r =>
      let hasErrors := strIncludes r.stderr "error" || strIncludes r.stdout "error •"
      if hasErrors && !(strIncludes r.stderr "info") && !(strIncludes r.stdout "info •") then
        ⟨false, some "Code contains errors and does not compile"⟩
      else
        ⟨true, some "Code compiles successfully"⟩
  | ExecOutcome.err _ =>
      match buildFallback with
      | none => ⟨true, some "Code compiles successfully"⟩
      | some m => ⟨false, some (jsOrElse (some m) "Build failed")⟩

/-- `runFlutterTest`: on completed output, pass iff stdout contains
`All tests passed!`, or contains `+` without `Some tests failed`. On a thrown
error, a no-tests condition gets its own message; both are failures. -/
def runFlutterTest (o : ExecOutcome) : StageResult :=
  match o with
  | ExecOutcome.ok r =>
      let allTestsPassed := strIncludes r.stdout "All tests passed!" ||
        (strIncludes r.stdout "+" && !(strIncludes r.stdout "Some tests failed"))
      if allTestsPassed then
        ⟨true, some "All tests passed"⟩
      else
        ⟨false, some "Tests failed or no tests found"⟩
  | ExecOutcome.err m =>
      if strIncludes m "No tests found" || strIncludes m "No test file" then
        ⟨false, some "No tests found"⟩
      else
        ⟨false, some (jsOrElse (some m) "Tests failed")⟩

/-- `collectLibFiles`: if the `lib/` directory does not exist, the empty
list; otherwise the `.dart` files the recursive walk yielded. -/
def collectLibFiles (libDir : Option (List LibFile)) : List LibFile :=
  match libDir with
  | none => []
  | some files => files

/-- Result shape of `evaluateWithGroq`. -/
structure GroqResult where
  score : Int
  summary : String
  strengths : List String
  weaknesses : List String
  recommendations : String
deriving DecidableEq

/-- `Math.min(Math.max(v, 0), maxAvailableScore)`. -/
def clampScore (v maxAvailableScore : Int) : Int :=
  min (max v 0) maxAvailableScore

/-- The response-processing tail of `evaluateWithGroq`: the JSON-parse
fallback chain, field coercion, clamping and truncation. -/
def processGroqContent (c : GroqContent) (maxAvailableScore : Int) : GroqResult :=
  match c with
  | GroqContent.unparsable raw extractedScore =>
      { score := clampScore (match extractedScore with
          | some n => (n : Int)
          | none => 0) maxAvailableScore
        summary := jsOrElse (some (jsSubstring raw 200)) "Evaluation completed"
        strengths := []
        weaknesses := []
        recommendations := "" }
  | GroqContent.json score summary feedback strengths weaknesses recommendations =>
      { score := clampScore (score.getD 0) maxAvailableScore
        summary := jsSubstring (jsOrElse summary (jsOrElse feedback "No summary provided")) 300
        strengths := ((strengths.getD []).map (fun s => jsSubstring s 150)).take 5
        weaknesses := ((weaknesses.getD []).map (fun w => jsSubstring w 150)).take 5
        recommendations := jsSubstring (jsOrElse recommendations "") 200 }

/-- `evaluateWithGroq`: a missing (or falsy) `GROQ_API_KEY` throws an
`InternalServerErrorException` before the `try` block; every failure inside
the `try` block (transport error, missing content) is caught and converted
into a zero-score result whose summary describes the failure; content is
processed by the fallback chain. -/
def evaluateWithGroq (apiKey : Option String) (maxAvailableScore : Int)
    (o : GroqOutcome) : Except ApiError GroqResult :=
  match apiKey with
  | none => Except.error (ApiError.internalServerError
      "Groq API key not configured. Please set GROQ_API_KEY environment variable.")
  | some key =>
      if key = "" then
        Except.error (ApiError.internalServerError
          "Groq API key not configured. Please set GROQ_API_KEY environment variable.")
      else
        match o with
        | GroqOutcome.transportError message apiMessage =>
            Except.ok
              { score := 0
                summary := "Evaluation failed: " ++ jsOrElse apiMessage message
                strengths := []
                weaknesses := []
                recommendations := "" }
        | GroqOutcome.noContent =>
            Except.ok
              { score := 0
                summary := "Evaluation failed: No response from Groq API"
                strengths := []
                weaknesses := []
                recommendations := "" }
        | GroqOutcome.content c =>
            Except.ok (processGroqContent c maxAvailableScore)

/-- `buildResponse`: assembles the dto; `summary` falls back to `feedback`
(JavaScript `summary || feedback`). -/
def buildResponse (totalScore maxScore : Int) (checks : List CheckResult)
    (details : EvalDetails) (feedback : Option String) (summary : Option String) :
    EvaluateResponseDto :=
  { totalScore := totalScore
    maxScore := maxScore
    checks := checks
    feedback := feedback
    summary := jsOrOpt summary feedback
    details := details }

/-- The orchestrator `evaluate`, translated branch for branch. The second
component records which side-effecting stages ran. The only exceptions the
model can raise are the typed `BadRequestException` (invalid URL) and the
typed `InternalServerErrorException` (missing Groq key); per the `catch`
block of the source, both are re-thrown unchanged. -/
def evaluate (env : Env) : Except ApiError EvaluateResponseDto × List Effect :=
  if isValidGitHubUrl env.url then
    match env.clonePath with
    | none =>
        (Except.ok (buildResponse 0 20
          [{ name := "Clone Repository", passed := false,
             message := some "Failed to clone repository", score := 0 }]
          { cloneSuccessful := false, filesValid := false, pubGetSuccessful := false,
            buildSuccessful := false, testsPassed := false, groqEvaluation := none }
          (some "Repository cloning failed. Score: 0/20") none),
         [Effect.cloneRepo])
    | some _ =>
        let cloneCheck : CheckResult :=
          { name := "Clone Repository", passed := true,
            message := some "Repository cloned successfully", score := 0 }
        let fv := checkRequiredFiles env.pubspecExists env.mainDartExists
        if fv.valid then
          let filesCheck : CheckResult :=
            { name := "Required Files Check", passed := true,
              message := some "pubspec.yaml and lib/main.dart exist", score := 0 }
          let pr := runFlutterPubGet env.pubGetExec
          if pr.success then
            let pubCheck : CheckResult :=
              { name := "Flutter Pub Get", passed := true,
                message := some "Dependencies installed successfully", score := 0 }
            let br := checkBuild env.analyzeExec env.buildFallback
            if br.success then
              let buildCheck : CheckResult :=
                { name := "Build Check", passed := true,
                  message := some "App compiles successfully", score := 0 }
              let tr := runFlutterTest env.testExec
              let testScore : Int := if tr.success then 5 else 0
              let testCheck : CheckResult :=
                if tr.success then
                  { name := "Flutter Test", passed := true,
                    message := some (jsOrElse tr.message "Tests passed"), score := 5 }
                else
                  { name := "Flutter Test", passed := false,
                    message := some (jsOrElse tr.message "Tests failed or no tests found"),
                    score := 0 }
              let checksAfterTest := [cloneCheck, filesCheck, pubCheck, buildCheck, testCheck]
              let libFiles := collectLibFiles env.libDir
              if libFiles.isEmpty then
                (Except.ok (buildResponse testScore 20 checksAfterTest
                  { cloneSuccessful := true, filesValid := true, pubGetSuccessful := true,
                    buildSuccessful := true, testsPassed := tr.success, groqEvaluation := none }
                  (some ("Evaluation completed. Score: " ++ toString testScore ++ "/20")) none),
                 [Effect.cloneRepo, Effect.pubGetCmd, Effect.analyzeCmd, Effect.testCmd,
                  Effect.collectFiles])
              else
                let remainingScore := 20 - testScore
                match evaluateWithGroq env.groqApiKey remainingScore env.groqOutcome with
                | Except.error e =>
                    (Except.error e,
                     [Effect.cloneRepo, Effect.pubGetCmd, Effect.analyzeCmd, Effect.testCmd,
                      Effect.collectFiles, Effect.groqStage])
                | Except.ok groqResult =>
                    let groqScore := min groqResult.score remainingScore
                    let totalScore := testScore + groqScore
                    (Except.ok (buildResponse totalScore 20
                      (checksAfterTest ++
                        [{ name := "Groq Code Evaluation", passed := true,
                           message := some "Code evaluated by Groq", score := groqScore }])
                      { cloneSuccessful := true, filesValid := true, pubGetSuccessful := true,
                        buildSuccessful := true, testsPassed := tr.success,
                        groqEvaluation := some
                          { score := groqScore, summary := groqResult.summary,
                            strengths := groqResult.strengths,
                            weaknesses := groqResult.weaknesses,
                            recommendations := groqResult.recommendations } }
                      (some groqResult.summary) (some groqResult.summary)),
                     [Effect.cloneRepo, Effect.pubGetCmd, Effect.analyzeCmd, Effect.testCmd,
                      Effect.collectFiles, Effect.groqStage])
            else
              (Except.ok (buildResponse 5 20
                [cloneCheck, filesCheck, pubCheck,
                 { name := "Build Check", passed := false, message := br.message, score := 0 }]
                { cloneSuccessful := true, filesValid := true, pubGetSuccessful := true,
                  buildSuccessful := false, testsPassed := false, groqEvaluation := none }
                (some "App does not compile. Maximum score: 5/20") none),
               [Effect.cloneRepo, Effect.pubGetCmd, Effect.analyzeCmd])
          else
            (Except.ok (buildResponse 5 20
              [cloneCheck, filesCheck,
               { name := "Flutter Pub Get", passed := false, message := pr.message, score := 0 }]
              { cloneSuccessful := true, filesValid := true, pubGetSuccessful := false,
                buildSuccessful := false, testsPassed := false, groqEvaluation := none }
              (some "Dependencies installation failed. Maximum score: 5/20") none),
             [Effect.cloneRepo, Effect.pubGetCmd])
        else
          (Except.ok (buildResponse 0 20
            [cloneCheck,
             { name := "Required Files Check", passed := false, message := fv.message, score := 0 }]
            { cloneSuccessful := true, filesValid := false, pubGetSuccessful := false,
              buildSuccessful := false, testsPassed := false, groqEvaluation := none }
            (some (jsOrElse fv.message "Required files missing. Score: 0/20")) none),
           [Effect.cloneRepo])
  else
    (Except.error (ApiError.badRequest "Invalid GitHub repository URL"), [])

/-- Splits a character list at every newline character (accumulator-based). -/
def splitLinesAux : List Char → List Char → List (List Char)
  | [], acc => [acc.reverse]
  | c :: rest, acc =>
      if c = '\n' then acc.reverse :: splitLinesAux rest []
      else splitLinesAux rest (c :: acc)

/-- The install-stage failure condition as the spec words it, stated from the spec's words (not from the source) for comparison with `runFlutterPubGet`: stderr consists solely of warning-level text when every line of it is empty or is a warning line. -/
def stderrSolelyWarnings (stderr : String) : Bool :=
  (splitLinesAux stderr.data []).all
    (fun line => line.isEmpty || hasInfixAux "Warning".data line)

/-- Extracts the response of a run that did not throw (a default for the throwing case). -/
def exceptResp (e : Except ApiError EvaluateResponseDto) : EvaluateResponseDto :=
  match e with
  | Except.ok r => r
  | Except.error _ => ⟨0, 0, [], none, none, ⟨false, false, false, false, false, none⟩⟩

/-- Extracts the result of an evaluator call that did not throw (a default otherwise). -/
def exceptGroq (e : Except ApiError GroqResult) : GroqResult :=
  match e with
  | Except.ok g => g
  | Except.error _ => ⟨0, "", [], [], ""⟩

/-- A baseline run in which every stage succeeds: valid GitHub URL, clone and file checks pass, all three commands succeed, one collected file, a configured key, and a well-formed Groq JSON reply scoring 12. -/
def envBase : Env :=
  { url := UrlParse.parsed "github.com", clonePath := some "/tmp/repo",
    pubspecExists := true, mainDartExists := true,
    pubGetExec := ExecOutcome.ok ⟨"Got dependencies!", ""⟩,
    analyzeExec := ExecOutcome.ok ⟨"No issues found!", ""⟩,
    buildFallback := none,
    testExec := ExecOutcome.ok ⟨"All tests passed!", ""⟩,
    libDir := some [⟨"main.dart", "void main() \x7b\x7d"⟩],
    groqApiKey := some "gsk-test",
    groqOutcome := GroqOutcome.content (GroqContent.json (some 12) (some "Solid Todo app")
      none (some ["Clean widgets"]) (some ["No error handling"]) (some "Add tests")) }

/-- A run whose `flutter pub get` reports a fatal stderr. -/
def envC1 : Env :=
  { envBase with pubGetExec := ExecOutcome.ok ⟨"", "fatal: could not resolve dependencies"⟩ }

/-- The response of the baseline run. -/
def respC2 : EvaluateResponseDto := exceptResp (evaluate envBase).1

/-- A run whose Groq call throws a network timeout. -/
def envC3 : Env :=
  { envBase with groqOutcome := GroqOutcome.transportError "connect ETIMEDOUT" none }

/-- A run with no GROQ_API_KEY configured. -/
def envC4 : Env := { envBase with groqApiKey := none }

/-- A run whose repository locator points at a disallowed host. -/
def envC5 : Env := { envBase with url := UrlParse.parsed "example.org" }

/-- A run with failing tests and an empty collected-file list. -/
def envC6 : Env :=
  { envBase with testExec := ExecOutcome.ok ⟨"00:02 +0 -1: Some tests failed", ""⟩,
                 libDir := some [] }

/-- A run with failing tests and a non-empty collected-file list. -/
def envC6W : Env :=
  { envBase with testExec := ExecOutcome.ok ⟨"00:02 +0 -1: Some tests failed", ""⟩ }

/-- A passing run whose collected-file list is empty. -/
def envC7 : Env := { envBase with libDir := some [] }

/-- A passing run whose lib directory does not exist. -/
def envC7W : Env := { envBase with libDir := none }

/-- A passing run whose Groq call fails with a DNS error. -/
def envC10 : Env :=
  { envBase with groqOutcome :=
      GroqOutcome.transportError "getaddrinfo ENOTFOUND api.groq.com" none }

/-- A captured stderr mixing an error line with a Warning line. -/
def stderrC8 : String := "error: version solving failed\nWarning: dependency is deprecated"

/-- A 320-character transport-error message. -/
def longMessageC9 : String := String.mk (List.replicate 320 'x')

/-- The evaluator result for a transport failure carrying `longMessageC9`. -/
def groqFailC9 : GroqResult :=
  exceptGroq (evaluateWithGroq (some "gsk-test") 15
    (GroqOutcome.transportError longMessageC9 none))

/-- An adversarially oversized Groq JSON reply: 400-character summary, seven strengths including a 200-character one, and a 250-character recommendation. -/
def contentC9 : GroqContent := GroqContent.json (some 99)
  (some (String.mk (List.replicate 400 'a'))) none
  (some ["clean state handling", "good widget split", "s3", "s4", "s5", "s6", "s7"])
  (some [String.mk (List.replicate 200 'b')])
  (some (String.mk (List.replicate 250 'r')))

/-- The evaluator result for `contentC9`. -/
def groqRespC9 : GroqResult :=
  exceptGroq (evaluateWithGroq (some "gsk-test") 15 (GroqOutcome.content contentC9))

/-- Truncation to `n` units yields a string of length at most `n`. -/
theorem jsSubstring_length_le (s : String) (n : Nat) : (jsSubstring s n).length ≤ n :=
  List.length_take_le n s.data

/-- The clamped score is nonnegative when the budget is. -/
theorem clampScore_nonneg (v m : Int) (hm : 0 ≤ m) : 0 ≤ clampScore v m :=
  le_min (le_max_right v 0) hm

/-- The clamped score never exceeds the budget. -/
theorem clampScore_le (v m : Int) : clampScore v m ≤ m :=
  min_le_right _ _

/-- Both parsing paths clamp the score into `[0, m]` when the budget `m` is nonnegative. -/
theorem processGroqContent_score_bounds (c : GroqContent) (m : Int) (hm : 0 ≤ m) :
    0 ≤ (processGroqContent c m).score ∧ (processGroqContent c m).score ≤ m := by
  cases c <;> exact ⟨clampScore_nonneg _ _ hm, clampScore_le _ _⟩

/-- Any result the evaluator returns without throwing has a score in `[0, m]` when the budget `m` is nonnegative. -/
theorem evaluateWithGroq_score_bounds (apiKey : Option String) (m : Int) (o : GroqOutcome)
    (g : GroqResult) (hm : 0 ≤ m)
    (h : evaluateWithGroq apiKey m o = Except.ok g) : 0 ≤ g.score ∧ g.score ≤ m := by
  cases apiKey with
  | none => simp [evaluateWithGroq] at h
  | some key =>
      by_cases hk : key = ""
      · simp [evaluateWithGroq, hk] at h
      · cases o with
        | transportError msg amsg =>
            simp [evaluateWithGroq, hk] at h
            subst h
            exact ⟨le_refl 0, hm⟩
        | noContent =>
            simp [evaluateWithGroq, hk] at h
            subst h
            exact ⟨le_refl 0, hm⟩
        | content c =>
            simp [evaluateWithGroq, hk] at h
            subst h
            exact processGroqContent_score_bounds c m hm

/-- With a non-empty key configured, the evaluator never throws: every outcome yields a result. -/
theorem evaluateWithGroq_ok_of_key (key : String) (hk : key ≠ "") (m : Int) (o : GroqOutcome) :
    ∃ g, evaluateWithGroq (some key) m o = Except.ok g := by
  cases o with
  | transportError msg amsg =>
      exact ⟨{ score := 0, summary := "Evaluation failed: " ++ jsOrElse amsg msg,
               strengths := [], weaknesses := [], recommendations := "" },
             by simp [evaluateWithGroq, hk]⟩
  | noContent =>
      exact ⟨{ score := 0, summary := "Evaluation failed: No response from Groq API",
               strengths := [], weaknesses := [], recommendations := "" },
             by simp [evaluateWithGroq, hk]⟩
  | content c =>
      exact ⟨processGroqContent c m, by simp [evaluateWithGroq, hk]⟩

/-- C1: in every run where cloning and the required-files check succeed but `flutter pub get` or the build check fails, the returned response's total score is capped at 5 and the checks list contains neither a test check nor a quality-evaluation check; the test and Groq stages are never invoked. -/
theorem c1_install_or_build_failure_caps_score (env : Env) (p : String)
    (hurl : isValidGitHubUrl env.url = true)
    (hclone : env.clonePath = some p)
    (hfiles : (checkRequiredFiles env.pubspecExists env.mainDartExists).valid = true)
    (hfail : (runFlutterPubGet env.pubGetExec).success = false ∨
      ((runFlutterPubGet env.pubGetExec).success = true ∧
       (checkBuild env.analyzeExec env.buildFallback).success = false)) :
    ∃ r, (evaluate env).1 = Except.ok r ∧ r.totalScore ≤ 5 ∧
      (∀ c ∈ r.checks, c.name ≠ "Flutter Test" ∧ c.name ≠ "Groq Code Evaluation") ∧
      Effect.testCmd ∉ (evaluate env).2 ∧ Effect.groqStage ∉ (evaluate env).2 := by
  rcases hfail with hpub | ⟨hpub, hbuild⟩
  · have he : evaluate env = (Except.ok (buildResponse 5 20
        [{ name := "Clone Repository", passed := true,
           message := some "Repository cloned successfully", score := 0 },
         { name := "Required Files Check", passed := true,
           message := some "pubspec.yaml and lib/main.dart exist", score := 0 },
         { name := "Flutter Pub Get", passed := false,
           message := (runFlutterPubGet env.pubGetExec).message, score := 0 }]
        ⟨true, true, false, false, false, none⟩
        (some "Dependencies installation failed. Maximum score: 5/20") none),
       [Effect.cloneRepo, Effect.pubGetCmd]) := by
      simp [evaluate, hurl, hclone, hfiles, hpub]
    rw [he]
    refine ⟨_, rfl, by simp [buildResponse], ?_, by simp, by simp⟩
    intro c hc
    simp [buildResponse] at hc
    rcases hc with rfl | rfl | rfl <;> exact ⟨by simp, by simp⟩
  · have he : evaluate env = (Except.ok (buildResponse 5 20
        [{ name := "Clone Repository", passed := true,
           message := some "Repository cloned successfully", score := 0 },
         { name := "Required Files Check", passed := true,
           message := some "pubspec.yaml and lib/main.dart exist", score := 0 },
         { name := "Flutter Pub Get", passed := true,
           message := some "Dependencies installed successfully", score := 0 },
         { name := "Build Check", passed := false,
           message := (checkBuild env.analyzeExec env.buildFallback).message, score := 0 }]
        ⟨true, true, true, false, false, none⟩
        (some "App does not compile. Maximum score: 5/20") none),
       [Effect.cloneRepo, Effect.pubGetCmd, Effect.analyzeCmd]) := by
      simp [evaluate, hurl, hclone, hfiles, hpub, hbuild]
    rw [he]
    refine ⟨_, rfl, by simp [buildResponse], ?_, by simp, by simp⟩
    intro c hc
    simp [buildResponse] at hc
    rcases hc with rfl | rfl | rfl | rfl <;> exact ⟨by simp, by simp⟩

/-- Witness for C1: the pub-get failure run returns a capped response. -/
theorem c1_witness :
    ∃ r, (evaluate envC1).1 = Except.ok r ∧ r.totalScore ≤ 5 ∧
      (∀ c ∈ r.checks, c.name ≠ "Flutter Test" ∧ c.name ≠ "Groq Code Evaluation") ∧
      Effect.testCmd ∉ (evaluate envC1).2 ∧ Effect.groqStage ∉ (evaluate envC1).2 :=
  c1_install_or_build_failure_caps_score envC1 "/tmp/repo" (by decide) rfl (by decide)
    (Or.inl (by decide))

/-- C2: every response the orchestrator returns has a total score within [0, 20], and any quality-evaluation sub-record's score lies within [0, budget remaining after the test stage], whatever numeric value the external LLM reported. -/
theorem c2_scores_within_bounds (env : Env) (r : EvaluateResponseDto)
    (h : (evaluate env).1 = Except.ok r) :
    0 ≤ r.totalScore ∧ r.totalScore ≤ 20 ∧
      ∀ g, r.details.groqEvaluation = some g →
        0 ≤ g.score ∧ g.score ≤ 20 - (if r.details.testsPassed then (5:Int) else 0) := by
  cases hurl : isValidGitHubUrl env.url with
  | false => simp [evaluate, hurl] at h
  | true =>
  cases hcp : env.clonePath with
  | none =>
      simp [evaluate, hurl, hcp] at h
      subst h
      simp [buildResponse]
  | some p =>
  cases hfv : (checkRequiredFiles env.pubspecExists env.mainDartExists).valid with
  | false =>
      simp [evaluate, hurl, hcp, hfv] at h
      subst h
      simp [buildResponse]
  | true =>
  cases hpr : (runFlutterPubGet env.pubGetExec).success with
  | false =>
      simp [evaluate, hurl, hcp, hfv, hpr] at h
      subst h
      simp [buildResponse]
  | true =>
  cases hbr : (checkBuild env.analyzeExec env.buildFallback).success with
  | false =>
      simp [evaluate, hurl, hcp, hfv, hpr, hbr] at h
      subst h
      simp [buildResponse]
  | true =>
  cases htr : (runFlutterTest env.testExec).success with
  | false =>
      cases hle : (collectLibFiles env.libDir).isEmpty with
      | true =>
          simp [evaluate, hurl, hcp, hfv, hpr, hbr, htr, hle] at h
          subst h
          simp [buildResponse]
      | false =>
          cases hgr : evaluateWithGroq env.groqApiKey 20 env.groqOutcome with
          | error e =>
              simp [evaluate, hurl, hcp, hfv, hpr, hbr, htr, hle, hgr] at h
          | ok g0 =>
              simp [evaluate, hurl, hcp, hfv, hpr, hbr, htr, hle, hgr] at h
              subst h
              obtain ⟨hb1, hb2⟩ :=
                evaluateWithGroq_score_bounds env.groqApiKey 20 env.groqOutcome g0
                  (by norm_num) hgr
              have h1 : 0 ≤ min g0.score 20 := le_min hb1 (by norm_num)
              have h2 : min g0.score 20 ≤ 20 := min_le_right _ _
              refine ⟨by simp [buildResponse]; try omega, by simp [buildResponse]; try omega, ?_⟩
              intro g hg
              simp [buildResponse] at hg
              subst hg
              refine ⟨by simp [buildResponse]; try omega, by simp [buildResponse]; try omega⟩
  | true =>
      cases hle : (collectLibFiles env.libDir).isEmpty with
      | true =>
          simp [evaluate, hurl, hcp, hfv, hpr, hbr, htr, hle] at h
          subst h
          simp [buildResponse]
      | false =>
          cases hgr : evaluateWithGroq env.groqApiKey 15 env.groqOutcome with
          | error e =>
              simp [evaluate, hurl, hcp, hfv, hpr, hbr, htr, hle, hgr] at h
          | ok g0 =>
              simp [evaluate, hurl, hcp, hfv, hpr, hbr, htr, hle, hgr] at h
              subst h
              obtain ⟨hb1, hb2⟩ :=
                evaluateWithGroq_score_bounds env.groqApiKey 15 env.groqOutcome g0
                  (by norm_num) hgr
              have h1 : 0 ≤ min g0.score 15 := le_min hb1 (by norm_num)
              have h2 : min g0.score 15 ≤ 15 := min_le_right _ _
              refine ⟨by simp [buildResponse]; try omega, by simp [buildResponse]; try omega, ?_⟩
              intro g hg
              simp [buildResponse] at hg
              subst hg
              refine ⟨by simp [buildResponse]; try omega, by simp [buildResponse]; try omega⟩

/-- Witness for C2: the baseline run's response satisfies the bounds. -/
theorem c2_witness :
    0 ≤ respC2.totalScore ∧ respC2.totalScore ≤ 20 ∧
      ∀ g, respC2.details.groqEvaluation = some g →
        0 ≤ g.score ∧ g.score ≤ 20 - (if respC2.details.testsPassed then (5:Int) else 0) :=
  c2_scores_within_bounds envBase respC2 (by rfl)

/-- C3: when all gating stages and the tests pass, the collection is non-empty, a key is configured and the Groq call fails for transport or API reasons, the run still returns a complete response with total score 5 and a quality-evaluation sub-record scoring 0 whose summary describes the failure. -/
theorem c3_transport_failure_degrades_to_zero (env : Env) (p key msg : String)
    (amsg : Option String)
    (hurl : isValidGitHubUrl env.url = true)
    (hclone : env.clonePath = some p)
    (hfiles : (checkRequiredFiles env.pubspecExists env.mainDartExists).valid = true)
    (hpub : (runFlutterPubGet env.pubGetExec).success = true)
    (hbuild : (checkBuild env.analyzeExec env.buildFallback).success = true)
    (htest : (runFlutterTest env.testExec).success = true)
    (hlib : collectLibFiles env.libDir ≠ [])
    (hkey : env.groqApiKey = some key) (hkeyne : key ≠ "")
    (hgroq : env.groqOutcome = GroqOutcome.transportError msg amsg) :
    ∃ r, (evaluate env).1 = Except.ok r ∧ r.totalScore = 5 ∧
      r.details.groqEvaluation = some
        { score := 0, summary := "Evaluation failed: " ++ jsOrElse amsg msg,
          strengths := [], weaknesses := [], recommendations := "" } := by
  have hle : (collectLibFiles env.libDir).isEmpty = false := by
    cases hll : collectLibFiles env.libDir
    · exact absurd hll hlib
    · rfl
  have hgr : evaluateWithGroq env.groqApiKey 15 env.groqOutcome = Except.ok
      { score := 0, summary := "Evaluation failed: " ++ jsOrElse amsg msg,
        strengths := [], weaknesses := [], recommendations := "" } := by
    rw [hkey, hgroq]; simp [evaluateWithGroq, hkeyne]
  have he : evaluate env = (Except.ok (buildResponse 5 20
      [⟨"Clone Repository", true, some "Repository cloned successfully", 0⟩,
       ⟨"Required Files Check", true, some "pubspec.yaml and lib/main.dart exist", 0⟩,
       ⟨"Flutter Pub Get", true, some "Dependencies installed successfully", 0⟩,
       ⟨"Build Check", true, some "App compiles successfully", 0⟩,
       ⟨"Flutter Test", true, some (jsOrElse (runFlutterTest env.testExec).message "Tests passed"), 5⟩,
       ⟨"Groq Code Evaluation", true, some "Code evaluated by Groq", 0⟩]
      ⟨true, true, true, true, true,
       some ⟨0, "Evaluation failed: " ++ jsOrElse amsg msg, [], [], ""⟩⟩
      (some ("Evaluation failed: " ++ jsOrElse amsg msg))
      (some ("Evaluation failed: " ++ jsOrElse amsg msg))),
     [Effect.cloneRepo, Effect.pubGetCmd, Effect.analyzeCmd, Effect.testCmd,
      Effect.collectFiles, Effect.groqStage]) := by
    simp [evaluate, hurl, hclone, hfiles, hpub, hbuild, htest, hle, hgr, buildResponse]
  rw [he]
  exact ⟨_, rfl, rfl, rfl⟩

/-- Witness for C3: a network timeout degrades to a zero-score sub-record, total 5. -/
theorem c3_witness :
    ∃ r, (evaluate envC3).1 = Except.ok r ∧ r.totalScore = 5 ∧
      r.details.groqEvaluation = some
        { score := 0, summary := "Evaluation failed: " ++ jsOrElse none "connect ETIMEDOUT",
          strengths := [], weaknesses := [], recommendations := "" } :=
  c3_transport_failure_degrades_to_zero envC3 "/tmp/repo" "gsk-test" "connect ETIMEDOUT" none
    (by decide) rfl (by decide) (by decide) (by decide) (by decide) (by decide) rfl
    (by decide) rfl

/-- C4: a missing evaluator credential does not degrade to a zero score: the run raises the typed internal-server-error configuration failure, re-thrown unchanged by the orchestrator. -/
theorem c4_missing_key_escalated (env : Env) (p : String)
    (hurl : isValidGitHubUrl env.url = true)
    (hclone : env.clonePath = some p)
    (hfiles : (checkRequiredFiles env.pubspecExists env.mainDartExists).valid = true)
    (hpub : (runFlutterPubGet env.pubGetExec).success = true)
    (hbuild : (checkBuild env.analyzeExec env.buildFallback).success = true)
    (hlib : collectLibFiles env.libDir ≠ [])
    (hkey : env.groqApiKey = none ∨ env.groqApiKey = some "") :
    (evaluate env).1 = Except.error (ApiError.internalServerError
      "Groq API key not configured. Please set GROQ_API_KEY environment variable.") := by
  have hle : (collectLibFiles env.libDir).isEmpty = false := by
    cases hll : collectLibFiles env.libDir
    · exact absurd hll hlib
    · rfl
  have hgr : ∀ (m : Int) (o : GroqOutcome), evaluateWithGroq env.groqApiKey m o =
      Except.error (ApiError.internalServerError
        "Groq API key not configured. Please set GROQ_API_KEY environment variable.") := by
    intro m o
    rcases hkey with hk | hk <;> rw [hk] <;> simp [evaluateWithGroq]
  cases htr : (runFlutterTest env.testExec).success <;>
    simp [evaluate, hurl, hclone, hfiles, hpub, hbuild, htr, hle, hgr]

/-- Witness for C4: the keyless run raises the configuration error. -/
theorem c4_witness :
    (evaluate envC4).1 = Except.error (ApiError.internalServerError
      "Groq API key not configured. Please set GROQ_API_KEY environment variable.") :=
  c4_missing_key_escalated envC4 "/tmp/repo" (by decide) rfl (by decide) (by decide)
    (by decide) (by decide) (Or.inl rfl)

/-- C5: a locator that does not parse as a URL, or whose hostname is not exactly github.com or www.github.com, is rejected as a bad request before any side effect: the effect trace is empty, so no workspace, clone or stage ever happens. -/
theorem c5_invalid_locator_rejected_without_side_effects (env : Env)
    (h : env.url = UrlParse.invalid ∨
      ∃ hostname, env.url = UrlParse.parsed hostname ∧
        hostname ≠ "github.com" ∧ hostname ≠ "www.github.com") :
    evaluate env = (Except.error (ApiError.badRequest "Invalid GitHub repository URL"), []) := by
  have hv : isValidGitHubUrl env.url = false := by
    rcases h with h | ⟨hst, h, h1, h2⟩
    · rw [h]; rfl
    · rw [h]; simp [isValidGitHubUrl, h1, h2]
  simp [evaluate, hv]

/-- Witness for C5: the example.org locator is rejected with an empty effect trace. -/
theorem c5_witness :
    evaluate envC5 = (Except.error (ApiError.badRequest "Invalid GitHub repository URL"), []) :=
  c5_invalid_locator_rejected_without_side_effects envC5
    (Or.inr ⟨"example.org", rfl, by decide, by decide⟩)

/-- C6 counterexample: a run whose build succeeds and whose tests fail but whose collection is empty never reaches the quality-evaluation stage: no Groq effect, no Groq check and no sub-record, refuting the unconditional claim that the quality-evaluation stage still runs. -/
theorem c6_counterexample :
    (checkBuild envC6.analyzeExec envC6.buildFallback).success = true ∧
    (runFlutterTest envC6.testExec).success = false ∧
    (evaluate envC6).2 = [Effect.cloneRepo, Effect.pubGetCmd, Effect.analyzeCmd,
      Effect.testCmd, Effect.collectFiles] ∧
    (exceptResp (evaluate envC6).1).checks.map CheckResult.name =
      ["Clone Repository", "Required Files Check", "Flutter Pub Get", "Build Check",
       "Flutter Test"] ∧
    (exceptResp (evaluate envC6).1).details.groqEvaluation = none := by decide

/-- C6 (amended): when the build succeeds and the test stage fails, a failed test check with score 0 is appended and the pipeline continues to file collection; the quality-evaluation stage runs exactly when the collection is non-empty. -/
theorem c6_amended_test_failure_nongating (env : Env) (p key : String)
    (hurl : isValidGitHubUrl env.url = true)
    (hclone : env.clonePath = some p)
    (hfiles : (checkRequiredFiles env.pubspecExists env.mainDartExists).valid = true)
    (hpub : (runFlutterPubGet env.pubGetExec).success = true)
    (hbuild : (checkBuild env.analyzeExec env.buildFallback).success = true)
    (htest : (runFlutterTest env.testExec).success = false)
    (hkey : env.groqApiKey = some key) (hkeyne : key ≠ "") :
    ∃ r, (evaluate env).1 = Except.ok r ∧
      (∃ c ∈ r.checks, c.name = "Flutter Test" ∧ c.passed = false ∧ c.score = 0) ∧
      Effect.collectFiles ∈ (evaluate env).2 ∧
      (Effect.groqStage ∈ (evaluate env).2 ↔ collectLibFiles env.libDir ≠ []) := by
  cases hll : collectLibFiles env.libDir with
  | nil =>
      have hle : (collectLibFiles env.libDir).isEmpty = true := by rw [hll]; rfl
      have he : evaluate env = (Except.ok (buildResponse 0 20
          [⟨"Clone Repository", true, some "Repository cloned successfully", 0⟩,
           ⟨"Required Files Check", true, some "pubspec.yaml and lib/main.dart exist", 0⟩,
           ⟨"Flutter Pub Get", true, some "Dependencies installed successfully", 0⟩,
           ⟨"Build Check", true, some "App compiles successfully", 0⟩,
           ⟨"Flutter Test", false,
            some (jsOrElse (runFlutterTest env.testExec).message "Tests failed or no tests found"),
            0⟩]
          ⟨true, true, true, true, false, none⟩
          (some ("Evaluation completed. Score: " ++ toString (0 : Int) ++ "/20")) none),
         [Effect.cloneRepo, Effect.pubGetCmd, Effect.analyzeCmd, Effect.testCmd,
          Effect.collectFiles]) := by
        simp [evaluate, hurl, hclone, hfiles, hpub, hbuild, htest, hle, buildResponse]
      rw [he]
      refine ⟨_, rfl,
        ⟨⟨"Flutter Test", false,
          some (jsOrElse (runFlutterTest env.testExec).message "Tests failed or no tests found"),
          0⟩, by simp [buildResponse], rfl, rfl, rfl⟩,
        by simp, by simp [hll]⟩
  | cons f fs =>
      have hle : (collectLibFiles env.libDir).isEmpty = false := by rw [hll]; rfl
      obtain ⟨g0, hg0⟩ := evaluateWithGroq_ok_of_key key hkeyne 20 env.groqOutcome
      have hg0x : evaluateWithGroq env.groqApiKey 20 env.groqOutcome = Except.ok g0 := by
        rw [hkey]; exact hg0
      have he : evaluate env = (Except.ok (buildResponse (min g0.score 20) 20
          [⟨"Clone Repository", true, some "Repository cloned successfully", 0⟩,
           ⟨"Required Files Check", true, some "pubspec.yaml and lib/main.dart exist", 0⟩,
           ⟨"Flutter Pub Get", true, some "Dependencies installed successfully", 0⟩,
           ⟨"Build Check", true, some "App compiles successfully", 0⟩,
           ⟨"Flutter Test", false,
            some (jsOrElse (runFlutterTest env.testExec).message "Tests failed or no tests found"),
            0⟩,
           ⟨"Groq Code Evaluation", true, some "Code evaluated by Groq", min g0.score 20⟩]
          ⟨true, true, true, true, false,
           some ⟨min g0.score 20, g0.summary, g0.strengths, g0.weaknesses, g0.recommendations⟩⟩
          (some g0.summary) (some g0.summary)),
         [Effect.cloneRepo, Effect.pubGetCmd, Effect.analyzeCmd, Effect.testCmd,
          Effect.collectFiles, Effect.groqStage]) := by
        simp [evaluate, hurl, hclone, hfiles, hpub, hbuild, htest, hle, hg0x, buildResponse]
      rw [he]
      refine ⟨_, rfl,
        ⟨⟨"Flutter Test", false,
          some (jsOrElse (runFlutterTest env.testExec).message "Tests failed or no tests found"),
          0⟩, by simp [buildResponse], rfl, rfl, rfl⟩,
        by simp, by simp [hll]⟩

/-- Witness for C6 (amended): failing tests with a non-empty collection still reach the Groq stage. -/
theorem c6_witness :
    ∃ r, (evaluate envC6W).1 = Except.ok r ∧
      (∃ c ∈ r.checks, c.name = "Flutter Test" ∧ c.passed = false ∧ c.score = 0) ∧
      Effect.collectFiles ∈ (evaluate envC6W).2 ∧
      (Effect.groqStage ∈ (evaluate envC6W).2 ↔ collectLibFiles envC6W.libDir ≠ []) :=
  c6_amended_test_failure_nongating envC6W "/tmp/repo" "gsk-test" (by decide) rfl
    (by decide) (by decide) (by decide) (by decide) rfl (by decide)

/-- C7 counterexample: a fully passing run with an empty collection returns totalScore 5 and a complete response, but the quality-evaluation stage is skipped: no Groq effect, check or sub-record, refuting the claim that it still runs. -/
theorem c7_counterexample :
    (runFlutterPubGet envC7.pubGetExec).success = true ∧
    (checkBuild envC7.analyzeExec envC7.buildFallback).success = true ∧
    (runFlutterTest envC7.testExec).success = true ∧
    collectLibFiles envC7.libDir = [] ∧
    (evaluate envC7).2 = [Effect.cloneRepo, Effect.pubGetCmd, Effect.analyzeCmd,
      Effect.testCmd, Effect.collectFiles] ∧
    (exceptResp (evaluate envC7).1).totalScore = 5 ∧
    (exceptResp (evaluate envC7).1).details.groqEvaluation = none ∧
    (exceptResp (evaluate envC7).1).checks.map CheckResult.name =
      ["Clone Repository", "Required Files Check", "Flutter Pub Get", "Build Check",
       "Flutter Test"] := by decide

/-- C7 (amended): an empty collection is not an error: the run still returns a complete response whose total score is exactly the test-stage score (the collection contributes zero), but the quality-evaluation stage is skipped rather than run. -/
theorem c7_amended_empty_collection_skips_quality (env : Env) (p : String)
    (hurl : isValidGitHubUrl env.url = true)
    (hclone : env.clonePath = some p)
    (hfiles : (checkRequiredFiles env.pubspecExists env.mainDartExists).valid = true)
    (hpub : (runFlutterPubGet env.pubGetExec).success = true)
    (hbuild : (checkBuild env.analyzeExec env.buildFallback).success = true)
    (hlib : collectLibFiles env.libDir = []) :
    ∃ r, (evaluate env).1 = Except.ok r ∧
      r.totalScore = (if (runFlutterTest env.testExec).success then (5:Int) else 0) ∧
      r.maxScore = 20 ∧ r.details.groqEvaluation = none ∧
      Effect.groqStage ∉ (evaluate env).2 := by
  have hle : (collectLibFiles env.libDir).isEmpty = true := by rw [hlib]; rfl
  cases htr : (runFlutterTest env.testExec).success with
  | false =>
      have he : evaluate env = (Except.ok (buildResponse 0 20
          [⟨"Clone Repository", true, some "Repository cloned successfully", 0⟩,
           ⟨"Required Files Check", true, some "pubspec.yaml and lib/main.dart exist", 0⟩,
           ⟨"Flutter Pub Get", true, some "Dependencies installed successfully", 0⟩,
           ⟨"Build Check", true, some "App compiles successfully", 0⟩,
           ⟨"Flutter Test", false,
            some (jsOrElse (runFlutterTest env.testExec).message "Tests failed or no tests found"),
            0⟩]
          ⟨true, true, true, true, false, none⟩
          (some ("Evaluation completed. Score: " ++ toString (0 : Int) ++ "/20")) none),
         [Effect.cloneRepo, Effect.pubGetCmd, Effect.analyzeCmd, Effect.testCmd,
          Effect.collectFiles]) := by
        simp [evaluate, hurl, hclone, hfiles, hpub, hbuild, htr, hle, buildResponse]
      rw [he]
      exact ⟨_, rfl, by simp [buildResponse, htr], rfl, rfl, by simp⟩
  | true =>
      have he : evaluate env = (Except.ok (buildResponse 5 20
          [⟨"Clone Repository", true, some "Repository cloned successfully", 0⟩,
           ⟨"Required Files Check", true, some "pubspec.yaml and lib/main.dart exist", 0⟩,
           ⟨"Flutter Pub Get", true, some "Dependencies installed successfully", 0⟩,
           ⟨"Build Check", true, some "App compiles successfully", 0⟩,
           ⟨"Flutter Test", true,
            some (jsOrElse (runFlutterTest env.testExec).message "Tests passed"), 5⟩]
          ⟨true, true, true, true, true, none⟩
          (some ("Evaluation completed. Score: " ++ toString (5 : Int) ++ "/20")) none),
         [Effect.cloneRepo, Effect.pubGetCmd, Effect.analyzeCmd, Effect.testCmd,
          Effect.collectFiles]) := by
        simp [evaluate, hurl, hclone, hfiles, hpub, hbuild, htr, hle, buildResponse]
      rw [he]
      exact ⟨_, rfl, by simp [buildResponse, htr], rfl, rfl, by simp⟩

/-- Witness for C7 (amended): a missing lib directory yields an empty collection and a complete 5-point response without a Groq stage. -/
theorem c7_witness :
    ∃ r, (evaluate envC7W).1 = Except.ok r ∧
      r.totalScore = (if (runFlutterTest envC7W.testExec).success then (5:Int) else 0) ∧
      r.maxScore = 20 ∧ r.details.groqEvaluation = none ∧
      Effect.groqStage ∉ (evaluate envC7W).2 :=
  c7_amended_empty_collection_skips_quality envC7W "/tmp/repo" (by decide) rfl
    (by decide) (by decide) (by decide) rfl

/-- C8 counterexample: a stderr holding an error line plus a Warning line is non-empty and does not consist solely of warning-level text, yet the install stage succeeds, refuting the claimed biconditional. -/
theorem c8_counterexample :
    stderrC8 ≠ "" ∧ stderrSolelyWarnings stderrC8 = false ∧
    (runFlutterPubGet (ExecOutcome.ok ⟨"", stderrC8⟩)).success = true :=
  ⟨by decide, by decide, by decide⟩

/-- C8 (amended): on a completed command the install stage succeeds iff stderr is empty or contains the substring Warning anywhere; a command that throws always fails. -/
theorem c8_amended_install_success_iff (stdout stderr errMessage : String) :
    (runFlutterPubGet (ExecOutcome.ok ⟨stdout, stderr⟩)).success
      = (stderr == "" || strIncludes stderr "Warning") ∧
    (runFlutterPubGet (ExecOutcome.err errMessage)).success = false := by
  constructor
  · cases hinc : strIncludes stderr "Warning" <;> by_cases h : stderr = "" <;>
      simp [runFlutterPubGet, h, hinc]
  · simp [runFlutterPubGet]

set_option maxRecDepth 8000 in
/-- C9 counterexample: on the caught-failure path the summary is not truncated: a 320-character transport-error message yields a 339-character summary, beyond the 300-character cap. -/
theorem c9_counterexample :
    evaluateWithGroq (some "gsk-test") 15 (GroqOutcome.transportError longMessageC9 none)
      = Except.ok groqFailC9 ∧
    300 < groqFailC9.summary.length := ⟨rfl, by decide⟩

/-- C9 (amended): whenever the Groq call returned content, the result respects every cap: summary at most 300 characters, at most 5 items of at most 150 characters per list, recommendation at most 200 characters; only the caught-failure path's summary is unbounded. -/
theorem c9_amended_content_caps (key : String) (hk : key ≠ "") (m : Int)
    (c : GroqContent) (g : GroqResult)
    (h : evaluateWithGroq (some key) m (GroqOutcome.content c) = Except.ok g) :
    g.summary.length ≤ 300 ∧
    g.strengths.length ≤ 5 ∧ (∀ s ∈ g.strengths, s.length ≤ 150) ∧
    g.weaknesses.length ≤ 5 ∧ (∀ w ∈ g.weaknesses, w.length ≤ 150) ∧
    g.recommendations.length ≤ 200 := by
  simp [evaluateWithGroq, hk] at h
  subst h
  cases c with
  | unparsable raw ex =>
      simp only [processGroqContent]
      refine ⟨?_, by simp, by simp, by simp, by simp, by simp⟩
      by_cases hr : jsSubstring raw 200 = ""
      · simp only [jsOrElse]
        rw [if_pos hr]
        decide
      · simp only [jsOrElse]
        rw [if_neg hr]
        exact le_trans (jsSubstring_length_le raw 200) (by norm_num)
  | json sc su fb st wk rcm =>
      simp only [processGroqContent]
      refine ⟨jsSubstring_length_le _ 300, List.length_take_le 5 _, ?_,
        List.length_take_le 5 _, ?_, jsSubstring_length_le _ 200⟩
      · intro s hs
        obtain ⟨y, hy, rfl⟩ := List.mem_map.1 (List.take_subset 5 _ hs)
        exact jsSubstring_length_le y 150
      · intro w hw
        obtain ⟨y, hy, rfl⟩ := List.mem_map.1 (List.take_subset 5 _ hw)
        exact jsSubstring_length_le y 150

set_option maxRecDepth 8000 in
/-- Witness for C9 (amended): the oversized JSON reply is truncated to the caps. -/
theorem c9_witness :
    groqRespC9.summary.length ≤ 300 ∧
    groqRespC9.strengths.length ≤ 5 ∧ (∀ s ∈ groqRespC9.strengths, s.length ≤ 150) ∧
    groqRespC9.weaknesses.length ≤ 5 ∧ (∀ w ∈ groqRespC9.weaknesses, w.length ≤ 150) ∧
    groqRespC9.recommendations.length ≤ 200 :=
  c9_amended_content_caps "gsk-test" (by decide) 15 contentC9 groqRespC9 rfl

/-- C10: whenever the quality-evaluation stage executes, the appended check is named Groq Code Evaluation with passed true and the fixed message, regardless of the Groq outcome; the flag never distinguishes evaluator failure from success. -/
theorem c10_groq_check_always_passed (env : Env) (p key : String)
    (hurl : isValidGitHubUrl env.url = true)
    (hclone : env.clonePath = some p)
    (hfiles : (checkRequiredFiles env.pubspecExists env.mainDartExists).valid = true)
    (hpub : (runFlutterPubGet env.pubGetExec).success = true)
    (hbuild : (checkBuild env.analyzeExec env.buildFallback).success = true)
    (hlib : collectLibFiles env.libDir ≠ [])
    (hkey : env.groqApiKey = some key) (hkeyne : key ≠ "") :
    ∃ r, (evaluate env).1 = Except.ok r ∧
      (∃ c ∈ r.checks, c.name = "Groq Code Evaluation" ∧ c.passed = true ∧
        c.message = some "Code evaluated by Groq") ∧
      (∀ c ∈ r.checks, c.name = "Groq Code Evaluation" →
        c.passed = true ∧ c.message = some "Code evaluated by Groq") := by
  have hle : (collectLibFiles env.libDir).isEmpty = false := by
    cases hll : collectLibFiles env.libDir
    · exact absurd hll hlib
    · rfl
  cases htr : (runFlutterTest env.testExec).success with
  | false =>
      obtain ⟨g0, hg0⟩ := evaluateWithGroq_ok_of_key key hkeyne 20 env.groqOutcome
      have hg0x : evaluateWithGroq env.groqApiKey 20 env.groqOutcome = Except.ok g0 := by
        rw [hkey]; exact hg0
      have he : evaluate env = (Except.ok (buildResponse (min g0.score 20) 20
          [⟨"Clone Repository", true, some "Repository cloned successfully", 0⟩,
           ⟨"Required Files Check", true, some "pubspec.yaml and lib/main.dart exist", 0⟩,
           ⟨"Flutter Pub Get", true, some "Dependencies installed successfully", 0⟩,
           ⟨"Build Check", true, some "App compiles successfully", 0⟩,
           ⟨"Flutter Test", false,
            some (jsOrElse (runFlutterTest env.testExec).message "Tests failed or no tests found"),
            0⟩,
           ⟨"Groq Code Evaluation", true, some "Code evaluated by Groq", min g0.score 20⟩]
          ⟨true, true, true, true, false,
           some ⟨min g0.score 20, g0.summary, g0.strengths, g0.weaknesses, g0.recommendations⟩⟩
          (some g0.summary) (some g0.summary)),
         [Effect.cloneRepo, Effect.pubGetCmd, Effect.analyzeCmd, Effect.testCmd,
          Effect.collectFiles, Effect.groqStage]) := by
        simp [evaluate, hurl, hclone, hfiles, hpub, hbuild, htr, hle, hg0x, buildResponse]
      rw [he]
      refine ⟨_, rfl,
        ⟨⟨"Groq Code Evaluation", true, some "Code evaluated by Groq", min g0.score 20⟩,
         by simp [buildResponse], rfl, rfl, rfl⟩, ?_⟩
      intro c hc
      simp [buildResponse] at hc
      rcases hc with rfl | rfl | rfl | rfl | rfl | rfl <;> intro hname
      · simp at hname
      · simp at hname
      · simp at hname
      · simp at hname
      · simp at hname
      · exact ⟨rfl, rfl⟩
  | true =>
      obtain ⟨g0, hg0⟩ := evaluateWithGroq_ok_of_key key hkeyne 15 env.groqOutcome
      have hg0x : evaluateWithGroq env.groqApiKey 15 env.groqOutcome = Except.ok g0 := by
        rw [hkey]; exact hg0
      have he : evaluate env = (Except.ok (buildResponse (5 + min g0.score 15) 20
          [⟨"Clone Repository", true, some "Repository cloned successfully", 0⟩,
           ⟨"Required Files Check", true, some "pubspec.yaml and lib/main.dart exist", 0⟩,
           ⟨"Flutter Pub Get", true, some "Dependencies installed successfully", 0⟩,
           ⟨"Build Check", true, some "App compiles successfully", 0⟩,
           ⟨"Flutter Test", true,
            some (jsOrElse (runFlutterTest env.testExec).message "Tests passed"), 5⟩,
           ⟨"Groq Code Evaluation", true, some "Code evaluated by Groq", min g0.score 15⟩]
          ⟨true, true, true, true, true,
           some ⟨min g0.score 15, g0.summary, g0.strengths, g0.weaknesses, g0.recommendations⟩⟩
          (some g0.summary) (some g0.summary)),
         [Effect.cloneRepo, Effect.pubGetCmd, Effect.analyzeCmd, Effect.testCmd,
          Effect.collectFiles, Effect.groqStage]) := by
        simp [evaluate, hurl, hclone, hfiles, hpub, hbuild, htr, hle, hg0x, buildResponse]
      rw [he]
      refine ⟨_, rfl,
        ⟨⟨"Groq Code Evaluation", true, some "Code evaluated by Groq", min g0.score 15⟩,
         by simp [buildResponse], rfl, rfl, rfl⟩, ?_⟩
      intro c hc
      simp [buildResponse] at hc
      rcases hc with rfl | rfl | rfl | rfl | rfl | rfl <;> intro hname
      · simp at hname
      · simp at hname
      · simp at hname
      · simp at hname
      · simp at hname
      · exact ⟨rfl, rfl⟩

/-- Witness for C10: even a failed Groq call yields a passed quality check. -/
theorem c10_witness :
    ∃ r, (evaluate envC10).1 = Except.ok r ∧
      (∃ c ∈ r.checks, c.name = "Groq Code Evaluation" ∧ c.passed = true ∧
        c.message = some "Code evaluated by Groq") ∧
      (∀ c ∈ r.checks, c.name = "Groq Code Evaluation" →
        c.passed = true ∧ c.message = some "Code evaluated by Groq") :=
  c10_groq_check_always_passed envC10 "/tmp/repo" "gsk-test" (by decide) rfl (by decide)
    (by decide) (by decide) (by decide) rfl (by decide)
